import Mathlib

/-!
Verification development for the Solar Roots subscription worker
(`src/index.ts`). The worker is a request router over a relational store
with two tables (`subscriptions`, `profiles`). We shallowly embed the
data model and the request handlers (`handleSubscribe`,
`handleConfirmation`, `handleSubscriptionCheck`, `handleProfile`,
`ensureSchema`) as pure Lean functions over explicit database states and
prove the specified properties of the subscription lifecycle.
-/

namespace SolarRoots

/-- One row of the `subscriptions` table, as created by the worker:
`email TEXT PRIMARY KEY, created_at TEXT NOT NULL, updated_at TEXT,
confirmed INTEGER NOT NULL DEFAULT 0, confirmation_token TEXT,
token_created_at TEXT`. Nullable columns are `Option String`; the
`confirmed` integer flag (only ever 0 or 1) is a `Bool`. -/
structure SubRow where
  email : String
  created_at : String
  updated_at : Option String
  confirmed : Bool
  confirmation_token : Option String
  token_created_at : Option String
  deriving Repr, DecidableEq

/-- The `subscriptions` table: a list of rows. `email` is the primary
key, so reachable states have pairwise distinct emails. -/
abbrev Db := List SubRow

/-- Embedding of `SELECT ... FROM subscriptions WHERE email = ?`
followed by `.first()`. -/
def findSub (db : Db) (e : String) : Option SubRow :=
  db.find? (fun r => r.email == e)

/-- Embedding of `UPDATE subscriptions SET ... WHERE email = ?`: every
row whose email matches is transformed by `f` (at most one row in a
well-formed table, since email is the primary key). -/
def updateSub (db : Db) (e : String) (f : SubRow → SubRow) : Db :=
  db.map (fun r => if r.email == e then f r else r)

/-- JS `\s`-style whitespace, restricted to the characters relevant to
the handlers (space, tab, newline, carriage return, form feed,
vertical tab). -/
def isSpaceChar (c : Char) : Bool :=
  c == ' ' || c == '\t' || c == '\n' || c == '\r' || c == '\x0c' || c == '\x0b'

/-- Embedding of JS `String.prototype.trim`: strip leading and trailing
whitespace. -/
def jsTrim (s : String) : String :=
  ⟨((s.toList.dropWhile isSpaceChar).reverse.dropWhile isSpaceChar).reverse⟩

/-- Embedding of JS `String.prototype.toLowerCase` for the ASCII range
used by the worker. -/
def jsToLower (s : String) : String :=
  ⟨s.toList.map (fun c => if 'A' ≤ c && c ≤ 'Z' then Char.ofNat (c.toNat + 32) else c)⟩

/-- Email normalization used throughout the worker:
`email.trim().toLowerCase()`. -/
def normalizeEmail (s : String) : String :=
  jsToLower (jsTrim s)

/-- A character allowed inside the local part and domain of the email
regex: anything other than whitespace and `@` (the class `[^\s@]`). -/
def isEmailChar (c : Char) : Bool :=
  !(isSpaceChar c) && c ≠ '@'

/-- Embedding of `isValidEmail` (`src/index.ts:71`): the test of the
anchored regex `^[^\s@]+@[^\s@]+\.[^\s@]+$`. A string matches iff it
splits at its unique `@` into a non-empty whitespace-free local part and
a domain that has a `.` with at least one character on each side. -/
def isValidEmail (s : String) : Bool :=
  match s.toList.splitOn '@' with
  | [localPart, domain] =>
    !localPart.isEmpty && localPart.all isEmailChar &&
    !domain.isEmpty && domain.all isEmailChar &&
    ((domain.drop 1).dropLast).contains '.'
  | _ => false

example : isValidEmail "a@b.com" = true := by decide
example : isValidEmail "A@B.com" = true := by decide
example : isValidEmail "a b@c.d" = false := by decide
example : isValidEmail "a@b" = false := by decide
example : normalizeEmail " A@B.com " = "a@b.com" := by decide

/-- Hexadecimal digit used by percent-encoding (uppercase, as produced
by `URLSearchParams`). -/
def hexDigit (n : Nat) : Char :=
  if n < 10 then Char.ofNat (48 + n) else Char.ofNat (55 + n)

/-- Encoding of one ASCII character under the
`application/x-www-form-urlencoded` serialization that
`url.searchParams.set` + `url.toString()` apply to query values:
alphanumerics and `*-._` pass through, space becomes `+`, every other
character becomes `%` plus two uppercase hex digits of its code point
(modelled for the single-byte ASCII range, which covers emails and
UUID tokens). -/
def formEncodeChar (c : Char) : List Char :=
  if c.isAlphanum || c == '*' || c == '-' || c == '.' || c == '_' then [c]
  else if c == ' ' then ['+']
  else ['%', hexDigit (c.toNat / 16), hexDigit (c.toNat % 16)]

/-- Percent-encoding of a query-parameter value, character by
character. -/
def formEncode (s : String) : String :=
  ⟨s.toList.flatMap formEncodeChar⟩

example : formEncode "a@b.com" = "a%40b.com" := by decide

/-- Embedding of `buildConfirmationLink` (`src/index.ts:90`): resolve
`/confirm` against the configured base URL (or the request origin when
none is configured) and attach the `token` and `email` query
parameters. The base is modelled as an origin string, matching
`new URL('/confirm', base)` for origin-only bases. -/
def buildConfirmationLink (requestOrigin : String) (configuredBaseUrl : Option String)
    (email token : String) : String :=
  let base := configuredBaseUrl.getD requestOrigin
  base ++ "/confirm?token=" ++ formEncode token ++ "&email=" ++ formEncode email

/-- The distinct HTML pages `handleConfirmation` can render via
`htmlResponse`. `missingInfo`, `notFound` and `invalidToken` are
rendered with status `'error'`, the other two with `'success'`. -/
inductive ConfPage
  | missingInfo
  | notFound
  | alreadyConfirmed
  | invalidToken
  | confirmedOk
  deriving Repr, DecidableEq

/-- Whether the page is rendered with `htmlResponse(..., 'error')`. -/
def ConfPage.isError : ConfPage → Bool
  | .missingInfo => true
  | .notFound => true
  | .invalidToken => true
  | .alreadyConfirmed => false
  | .confirmedOk => false

/-- HTTP status of the rendered page: `htmlResponse` returns 400 for
`'error'` pages and 200 otherwise. -/
def ConfPage.httpStatus (p : ConfPage) : Nat :=
  if p.isError then 400 else 200

/-- Row transformation of the confirming `UPDATE`:
`SET confirmed = 1, confirmation_token = NULL, updated_at = ?,
token_created_at = NULL`. -/
def confirmRow (now : String) (r : SubRow) : SubRow :=
  { r with confirmed := true, confirmation_token := none,
           updated_at := some now, token_created_at := none }

/-- Embedding of `handleConfirmation` (`src/index.ts:179`) for GET
requests, taking the `token` and `email` query parameters
(`none` when absent from the URL). Mirrors the source control flow:
falsy-token/email guard, normalization, lookup, already-confirmed
short-circuit, token comparison (a stored `NULL` or empty token never
matches), and the confirming `UPDATE` that sets `confirmed = 1` and
clears `confirmation_token` and `token_created_at`. -/
def handleConfirmation (db : Db) (now : String)
    (tokenParam emailParam : Option String) : Db × ConfPage :=
  let token := tokenParam.getD ""
  let email := emailParam.getD ""
  if token = "" ∨ email = "" then (db, .missingInfo)
  else
    let normalizedEmail := normalizeEmail email
    if normalizedEmail = "" then (db, .missingInfo)
    else
      match findSub db normalizedEmail with
      | none => (db, .notFound)
      | some existing =>
        if existing.confirmed then (db, .alreadyConfirmed)
        else
          match existing.confirmation_token with
          | none => (db, .invalidToken)
          | some t =>
            if t = "" ∨ t ≠ token then (db, .invalidToken)
            else
              (updateSub db normalizedEmail (confirmRow now), .confirmedOk)

/-- Result of one `handleSubscribe` call: the resulting table, the JSON
response (status, `success`, `message` or `error` text) and the email
dispatch handed to `ctx.waitUntil` (recipient and confirmation link),
`none` when no email is sent. -/
structure SubscribeOutcome where
  db : Db
  status : Nat
  success : Bool
  message : String
  emailDispatch : Option (String × String)
  deriving Repr, DecidableEq

/-- Row transformation of the pending-resubscribe `UPDATE`:
`SET confirmation_token = ?, token_created_at = ?, updated_at = ?`. -/
def refreshTokenRow (token now : String) (r : SubRow) : SubRow :=
  { r with confirmation_token := some token, token_created_at := some now,
           updated_at := some now }

/-- The row written by the subscribe `INSERT`:
`(email, created_at, confirmed, confirmation_token, token_created_at)
VALUES (?, ?, 0, ?, ?)`; `updated_at` is left `NULL`. -/
def newSubRow (email now token : String) : SubRow :=
  ⟨email, now, none, false, some token, some now⟩

/-- Embedding of `handleSubscribe` (`src/index.ts:390`). `emailField` is
the `email` member of the parsed JSON payload (`none` when the payload
is invalid or the member is not a string); `freshToken` is the value
produced by `crypto.randomUUID()`; `now` is `new Date().toISOString()`.
Mirrors the source: raw-email regex validation, normalization, lookup,
already-confirmed short-circuit, token reuse via
`existing.confirmation_token ?? token` (a non-null stored token is
reused, even an empty one), `UPDATE` for pending rows, `INSERT` with
`confirmed = 0` and a `NULL` `updated_at` for unknown emails, and the
detached confirmation-email dispatch. -/
def handleSubscribe (db : Db) (now freshToken requestOrigin : String)
    (siteBaseUrl : Option String) (emailField : Option String) : SubscribeOutcome :=
  match emailField with
  | none => ⟨db, 400, false, "A valid email address is required.", none⟩
  | some email =>
    if !isValidEmail email then
      ⟨db, 400, false, "A valid email address is required.", none⟩
    else
      let normalizedEmail := normalizeEmail email
      match findSub db normalizedEmail with
      | some existing =>
        if existing.confirmed then
          ⟨db, 200, true, "Email is already confirmed.", none⟩
        else
          let token := existing.confirmation_token.getD freshToken
          let link := buildConfirmationLink requestOrigin siteBaseUrl normalizedEmail token
          ⟨updateSub db normalizedEmail (refreshTokenRow token now),
           202, true, "Confirmation email sent. Please check your inbox.",
           some (normalizedEmail, link)⟩
      | none =>
        let link := buildConfirmationLink requestOrigin siteBaseUrl normalizedEmail freshToken
        ⟨db ++ [newSubRow normalizedEmail now freshToken],
         202, true, "Confirmation email sent. Please check your inbox.",
         some (normalizedEmail, link)⟩

/-- Embedding of `handleSubscriptionCheck` (`src/index.ts:303`): a
read-only existence probe. The table is returned unchanged because the
handler only issues a `SELECT`. -/
def handleSubscriptionCheck (db : Db) (emailField : Option String) :
    Db × Nat × Bool × String :=
  match emailField with
  | none => (db, 400, false, "Invalid request.")
  | some raw =>
    let email := normalizeEmail raw
    if !isValidEmail email then (db, 400, false, "Invalid email address.")
    else
      match findSub db email with
      | some _ => (db, 200, true, "This email is already subscribed.")
      | none => (db, 200, true, "This email is available.")

/-- One row of the `profiles` table as created by the worker:
`id INTEGER PRIMARY KEY AUTOINCREMENT, email TEXT NOT NULL UNIQUE,
name TEXT NOT NULL, bio TEXT NOT NULL, created_at TEXT NOT NULL,
updated_at TEXT NOT NULL` (the surrogate `id` is omitted; `email` is
the unique key used by the upsert). Note the source schema has no
password-digest column. -/
structure ProfileRow where
  email : String
  name : String
  bio : String
  created_at : String
  updated_at : String
  deriving Repr, DecidableEq

/-- Embedding of the profile upsert
`INSERT ... ON CONFLICT(email) DO UPDATE SET name = excluded.name,
bio = excluded.bio, updated_at = excluded.updated_at`. -/
def upsertProfile (profiles : List ProfileRow) (email name bio now : String) :
    List ProfileRow :=
  if profiles.any (fun p => p.email == email) then
    profiles.map (fun p =>
      if p.email == email then { p with name := name, bio := bio, updated_at := now }
      else p)
  else
    profiles ++ [⟨email, name, bio, now, now⟩]

/-- Result of one `handleProfile` call: both tables and the JSON
response. -/
structure ProfileOutcome where
  subs : Db
  profiles : List ProfileRow
  status : Nat
  success : Bool
  message : String
  deriving Repr, DecidableEq

/-- Embedding of `handleProfile` (`src/index.ts:330`) for POST
requests. The source handler reads only the `email`, `name` and `bio`
payload members (each `none` when absent or not a string): it has no
password parameter at all. It validates the normalized email, requires
non-empty trimmed name and bio, requires an existing subscription row,
and then upserts `(email, name, bio, now, now)`. -/
def handleProfile (subs : Db) (profiles : List ProfileRow) (now : String)
    (emailField nameField bioField : Option String) : ProfileOutcome :=
  let email := normalizeEmail (emailField.getD "")
  let name := jsTrim (nameField.getD "")
  let bio := jsTrim (bioField.getD "")
  if !isValidEmail email then ⟨subs, profiles, 400, false, "Invalid email address."⟩
  else if name = "" then ⟨subs, profiles, 400, false, "Name is required."⟩
  else if bio = "" then ⟨subs, profiles, 400, false, "Bio is required."⟩
  else
    match findSub subs email with
    | none => ⟨subs, profiles, 404, false, "Email not found in subscriptions."⟩
    | some _ =>
      ⟨subs, upsertProfile profiles email name bio now, 200, true,
       "Profile saved successfully."⟩

/-- State of one table in the schema-level model: whether the table
exists and which columns it has. -/
structure TableState where
  present : Bool
  cols : List String
  deriving Repr, DecidableEq

/-- Schema-level state of the database: the two tables the worker
manages. -/
structure SchemaState where
  subscriptions : TableState
  profiles : TableState
  deriving Repr, DecidableEq

/-- Columns of the `subscriptions` table as written in the
`CREATE TABLE IF NOT EXISTS` statement of `ensureSchema`. -/
def subscriptionsTableColumns : List String :=
  ["email", "created_at", "updated_at", "confirmed", "confirmation_token",
   "token_created_at"]

/-- Columns of the `profiles` table as written in the
`CREATE TABLE IF NOT EXISTS` statement of `ensureSchema`. There is no
password-digest column in the statement. -/
def profilesTableColumns : List String :=
  ["id", "email", "name", "bio", "created_at", "updated_at"]

/-- Semantics of one `CREATE TABLE IF NOT EXISTS` statement: create the
table with the listed columns when absent, leave an existing table
completely untouched (in particular, no columns are added to it). -/
def createTableIfAbsent (t : TableState) (cols : List String) : TableState :=
  if t.present then t else ⟨true, cols⟩

/-- Embedding of `ensureSchema` (`src/index.ts:76`): the handler-side
schema bootstrapper issues exactly two `CREATE TABLE IF NOT EXISTS`
statements and nothing else — no `pragma_table_info` probes and no
`ALTER TABLE ... ADD COLUMN` statements appear in the source. -/
def ensureSchema (s : SchemaState) : SchemaState :=
  ⟨createTableIfAbsent s.subscriptions subscriptionsTableColumns,
   createTableIfAbsent s.profiles profilesTableColumns⟩

/-- Outcome of the detached `sendConfirmationEmail` call: either the
provider request succeeds, or it throws with some error. -/
inductive SendOutcome
  | delivered
  | failed (err : String)
  deriving Repr, DecidableEq

/-- The detached task handed to `ctx.waitUntil`:
`sendConfirmationEmail(...).catch((error) => log(...))`. A failed send
produces a log entry and nothing else; it never rethrows. Returns the
log lines the task emits. -/
def detachedSendLog : SendOutcome → List String
  | .delivered => []
  | .failed err => ["Failed to send confirmation email: " ++ err]

/-- A whole subscribe request together with the eventual fate of its
detached email send: the HTTP outcome (computed and returned before the
send completes) paired with the log lines of the detached task. -/
def subscribeRequest (db : Db) (now freshToken requestOrigin : String)
    (siteBaseUrl : Option String) (emailField : Option String)
    (sendOutcome : SendOutcome) : SubscribeOutcome × List String :=
  let o := handleSubscribe db now freshToken requestOrigin siteBaseUrl emailField
  (o, match o.emailDispatch with
      | some _ => detachedSendLog sendOutcome
      | none => [])

/-- Modelled from the spec: the configuration consulted by the
`POST /api/admin/login` handler, which is absent from `src/index.ts`
(the router has no such route; only its tests, `admin login handler`,
exercise it). Spec §4.4: an admin credential is an env-configured
email plus either a plaintext password or a password digest. -/
structure AdminEnv where
  ADMIN_EMAIL : Option String
  ADMIN_PASSWORD : Option String
  ADMIN_PASSWORD_HASH : Option String
  deriving Repr, DecidableEq

/-- Modelled from the spec: the `POST /api/admin/login` handler, absent
from `src/index.ts`. Spec §4.4/§6 and the tests: missing configuration
gives 503 `Admin access is not configured.`; with configuration, the
submitted email/password are compared against the configured plaintext
value, or — when no plaintext secret is configured — the digest of the
submitted password is compared against the configured digest; a match
gives 200 `Admin login successful.`, any mismatch gives 401
`Incorrect admin credentials.`. The one-way digest (SHA-256 hex in the
tests) is abstracted as the `digest` parameter. -/
def handleAdminLogin (digest : String → String) (env : AdminEnv)
    (email password : String) : Nat × Bool × String :=
  match env.ADMIN_EMAIL with
  | none => (503, false, "Admin access is not configured.")
  | some adminEmail =>
    match env.ADMIN_PASSWORD with
    | some adminPassword =>
      if email = adminEmail ∧ password = adminPassword then
        (200, true, "Admin login successful.")
      else
        (401, false, "Incorrect admin credentials.")
    | none =>
      match env.ADMIN_PASSWORD_HASH with
      | none => (503, false, "Admin access is not configured.")
      | some adminHash =>
        if email = adminEmail ∧ digest password = adminHash then
          (200, true, "Admin login successful.")
        else
          (401, false, "Incorrect admin credentials.")

/-! ### Basic lemmas about the table operations -/

theorem findSub_updateSub (db : Db) (e : String) (f : SubRow → SubRow)
    (hf : ∀ r, (f r).email = r.email) :
    findSub (updateSub db e f) e = (findSub db e).map f := by
  induction db with
  | nil => rfl
  | cons r tl ih =>
    simp only [findSub, updateSub, List.map_cons, List.find?_cons] at ih ⊢
    by_cases h : r.email = e
    · simp [h, hf]
    · have hb : (r.email == e) = false := by simp [h]
      simpa [hb] using ih

theorem updateSub_map_email (db : Db) (e : String) (f : SubRow → SubRow)
    (hf : ∀ r, (f r).email = r.email) :
    (updateSub db e f).map SubRow.email = db.map SubRow.email := by
  induction db with
  | nil => rfl
  | cons r tl ih =>
    simp only [updateSub, List.map_cons] at ih ⊢
    by_cases h : r.email = e
    · rw [if_pos (by simp [h]), hf]
      exact congrArg (List.cons r.email) ih
    · rw [if_neg (by simp [h])]
      exact congrArg (List.cons r.email) ih

theorem mem_updateSub {r' : SubRow} {db : Db} {e : String} {f : SubRow → SubRow}
    (h : r' ∈ updateSub db e f) :
    ∃ r ∈ db, r' = if r.email == e then f r else r := by
  rcases List.mem_map.mp h with ⟨r, hr, hr'⟩
  exact ⟨r, hr, hr'.symm⟩

theorem findSub_eq_none {db : Db} {e : String} (h : findSub db e = none) :
    ∀ r ∈ db, r.email ≠ e := by
  intro r hr
  have := List.find?_eq_none.mp h r hr
  simpa using this

theorem findSub_mem {db : Db} {e : String} {r : SubRow}
    (h : findSub db e = some r) : r ∈ db :=
  List.mem_of_find?_eq_some h

theorem findSub_email {db : Db} {e : String} {r : SubRow}
    (h : findSub db e = some r) : r.email = e := by
  have := List.find?_some h
  simpa using this

/-! ### The token invariant and reachable states -/

/-- Invariant of a single subscription row: the confirmation token is
non-null only while `confirmed` is false. -/
def subTokenInv (r : SubRow) : Prop :=
  r.confirmed = true → r.confirmation_token = none

/-- Well-formedness of the `subscriptions` table: emails are pairwise
distinct (email is the primary key) and every row satisfies the token
invariant. -/
def DbWf (db : Db) : Prop :=
  (db.map SubRow.email).Nodup ∧ ∀ r ∈ db, subTokenInv r

/-- The subscription tables reachable from the empty store by the four
operations of the worker: subscribe, confirm, check, and profile
upsert. -/
inductive Reachable : Db → Prop
  | empty : Reachable []
  | subscribe (db : Db) (now freshToken requestOrigin : String)
      (siteBaseUrl : Option String) (emailField : Option String) :
      Reachable db →
      Reachable (handleSubscribe db now freshToken requestOrigin siteBaseUrl emailField).db
  | confirm (db : Db) (now : String) (tokenParam emailParam : Option String) :
      Reachable db →
      Reachable (handleConfirmation db now tokenParam emailParam).1
  | check (db : Db) (emailField : Option String) :
      Reachable db →
      Reachable (handleSubscriptionCheck db emailField).1
  | profile (db : Db) (profiles : List ProfileRow) (now : String)
      (emailField nameField bioField : Option String) :
      Reachable db →
      Reachable (handleProfile db profiles now emailField nameField bioField).subs

theorem handleSubscriptionCheck_fst (db : Db) (emailField : Option String) :
    (handleSubscriptionCheck db emailField).1 = db := by
  simp only [handleSubscriptionCheck]
  split
  · rfl
  · split
    · rfl
    · split <;> rfl

theorem handleProfile_subs (subs : Db) (profiles : List ProfileRow) (now : String)
    (emailField nameField bioField : Option String) :
    (handleProfile subs profiles now emailField nameField bioField).subs = subs := by
  simp only [handleProfile]
  split
  · rfl
  · split
    · rfl
    · split
      · rfl
      · split <;> rfl

theorem dbWf_updateSub (db : Db) (e : String) (f : SubRow → SubRow)
    (hf : ∀ r, (f r).email = r.email) (hwf : DbWf db)
    (hinv : ∀ r ∈ db, r.email = e → subTokenInv (f r)) :
    DbWf (updateSub db e f) := by
  refine ⟨?_, ?_⟩
  · rw [updateSub_map_email db e f hf]
    exact hwf.1
  · intro r' hr'
    rcases mem_updateSub hr' with ⟨r, hr, hdef⟩
    by_cases h : (r.email == e) = true
    · rw [hdef, if_pos h]
      exact hinv r hr (by simpa using h)
    · rw [hdef, if_neg h]
      exact hwf.2 r hr

theorem dbWf_handleConfirmation (db : Db) (now : String)
    (tokenParam emailParam : Option String) (hwf : DbWf db) :
    DbWf (handleConfirmation db now tokenParam emailParam).1 := by
  simp only [handleConfirmation]
  split
  · exact hwf
  · split
    · exact hwf
    · split
      · exact hwf
      · split
        · exact hwf
        · split
          · exact hwf
          · split
            · exact hwf
            · exact dbWf_updateSub _ _ _ (fun r => rfl) hwf (fun r _ _ _ => rfl)

theorem dbWf_handleSubscribe (db : Db) (now freshToken requestOrigin : String)
    (siteBaseUrl : Option String) (emailField : Option String) (hwf : DbWf db) :
    DbWf (handleSubscribe db now freshToken requestOrigin siteBaseUrl emailField).db := by
  simp only [handleSubscribe]
  split
  · exact hwf
  · rename_i email
    split
    · exact hwf
    · split
      · rename_i existing hfind
        split
        · exact hwf
        · rename_i hconf
          refine dbWf_updateSub _ _ _ (fun r => rfl) hwf ?_
          intro r hr hemail hcr
          exfalso
          have hex : existing ∈ db := findSub_mem hfind
          have hee : existing.email = normalizeEmail email := findSub_email hfind
          have hre : r = existing :=
            List.inj_on_of_nodup_map hwf.1 hr hex (by rw [hemail, hee])
          rw [hre] at hcr
          exact hconf hcr
      · rename_i hfind
        refine ⟨?_, ?_⟩
        · rw [List.map_append, List.nodup_append]
          refine ⟨hwf.1, List.nodup_singleton _, ?_⟩
          intro a ha hb
          simp only [List.map_cons, List.map_nil, List.mem_singleton] at hb
          subst hb
          rcases List.mem_map.mp ha with ⟨r, hr, hre⟩
          exact findSub_eq_none hfind r hr hre
        · intro r hr
          rcases List.mem_append.mp hr with h | h
          · exact hwf.2 r h
          · rw [List.mem_singleton] at h
            subst h
            intro hc
            simp [newSubRow] at hc

theorem reachable_dbWf {db : Db} (h : Reachable db) : DbWf db := by
  induction h with
  | empty => exact ⟨List.nodup_nil, by intro r hr; cases hr⟩
  | subscribe db now ft ro sb ef _ ih => exact dbWf_handleSubscribe db now ft ro sb ef ih
  | confirm db now tp ep _ ih => exact dbWf_handleConfirmation db now tp ep ih
  | check db ef _ ih =>
    rw [handleSubscriptionCheck_fst]
    exact ih
  | profile db ps now ef nf bf _ ih =>
    rw [handleProfile_subs]
    exact ih

/-! ### Claim theorems -/

/-- C3: for every reachable subscription record and every operation
(Subscribe, Confirm, Check, Profile upsert), the confirmation token is
non-null only while `confirmed = false`; the confirming transition sets
`confirmed = 1` and clears the token in one `UPDATE`, and no operation
ever produces a record with `confirmed = true` and a non-null token. -/
theorem confirmed_rows_have_no_token (db : Db) (h : Reachable db) :
    ∀ r ∈ db, r.confirmed = true → r.confirmation_token = none := by
  intro r hr
  exact (reachable_dbWf h).2 r hr

/-- A concrete reachable table for the C3 witness: subscribe
`user@example.com`, then confirm it with the issued token. -/
def c3DemoDb : Db :=
  (handleConfirmation
    (handleSubscribe [] "2024-01-01T00:00:00.000Z" "token-1" "https://landing.example"
      none (some "user@example.com")).db
    "2024-01-02T00:00:00.000Z" (some "token-1") (some "user@example.com")).1

/-- The row of `c3DemoDb` after confirmation. -/
def c3DemoRow : SubRow :=
  ⟨"user@example.com", "2024-01-01T00:00:00.000Z", some "2024-01-02T00:00:00.000Z",
   true, none, none⟩

theorem confirmed_rows_have_no_token_witness : c3DemoRow.confirmation_token = none :=
  confirmed_rows_have_no_token c3DemoDb
    (Reachable.confirm _ _ _ _ (Reachable.subscribe _ _ _ _ _ _ Reachable.empty))
    c3DemoRow (by decide) (by decide)

/-- C1: for a pending record (confirmed = false) whose stored
confirmation token equals the supplied (non-empty) token, confirming
sets `confirmed = 1`, clears `confirmation_token` and
`token_created_at`, sets `updated_at`, and renders the success page
(HTTP 200); a subsequent Confirm for the same email — with any
non-empty token — renders a success page and leaves the table
untouched. The non-emptiness hypotheses reflect that the handler
rejects requests with an empty `token` query parameter before any
lookup. -/
theorem confirm_matching_token (db : Db) (now now2 e t t2 : String) (r : SubRow)
    (hne : normalizeEmail e ≠ "")
    (hfind : findSub db (normalizeEmail e) = some r)
    (hpending : r.confirmed = false)
    (hstored : r.confirmation_token = some t)
    (ht : t ≠ "") (ht2 : t2 ≠ "") :
    handleConfirmation db now (some t) (some e) =
      (updateSub db (normalizeEmail e) (confirmRow now), ConfPage.confirmedOk)
    ∧ ConfPage.confirmedOk.httpStatus = 200
    ∧ handleConfirmation (updateSub db (normalizeEmail e) (confirmRow now))
        now2 (some t2) (some e) =
      (updateSub db (normalizeEmail e) (confirmRow now), ConfPage.alreadyConfirmed)
    ∧ ConfPage.alreadyConfirmed.httpStatus = 200 := by
  have he : e ≠ "" := by
    intro h0
    exact hne (by rw [h0]; rfl)
  refine ⟨?_, rfl, ?_, rfl⟩
  · simp [handleConfirmation, he, hne, ht, hfind, hpending, hstored]
  · have hf2 : findSub (updateSub db (normalizeEmail e) (confirmRow now))
        (normalizeEmail e) = some (confirmRow now r) := by
      rw [findSub_updateSub db (normalizeEmail e) (confirmRow now) (fun s => rfl), hfind]
      rfl
    simp [handleConfirmation, he, hne, ht2, hf2, confirmRow]

theorem confirm_matching_token_witness :
    normalizeEmail "User@Example.com" ≠ "" ∧
    handleConfirmation [⟨"user@example.com", "t0", none, false, some "valid-token", some "t0"⟩]
        "t1" (some "valid-token") (some "User@Example.com") =
      (updateSub [⟨"user@example.com", "t0", none, false, some "valid-token", some "t0"⟩]
        (normalizeEmail "User@Example.com") (confirmRow "t1"), ConfPage.confirmedOk) :=
  ⟨by decide,
   (confirm_matching_token
      [⟨"user@example.com", "t0", none, false, some "valid-token", some "t0"⟩]
      "t1" "t2" "User@Example.com" "valid-token" "other-token"
      ⟨"user@example.com", "t0", none, false, some "valid-token", some "t0"⟩
      (by decide) (by decide) (by decide) (by decide) (by decide) (by decide)).1⟩

/-- C2: subscribing again for an existing unconfirmed record reuses the
stored confirmation token: the token written back by the `UPDATE` and
the token embedded in the new confirmation link both equal the stored
token (the fresh `crypto.randomUUID()` value is discarded), and the
update timestamp is refreshed to `now`. -/
theorem subscribe_pending_reuses_token (db : Db)
    (now freshToken requestOrigin : String) (siteBaseUrl : Option String)
    (email t : String) (r : SubRow)
    (hvalid : isValidEmail email = true)
    (hfind : findSub db (normalizeEmail email) = some r)
    (hpending : r.confirmed = false)
    (hstored : r.confirmation_token = some t) :
    handleSubscribe db now freshToken requestOrigin siteBaseUrl (some email) =
      ⟨updateSub db (normalizeEmail email) (refreshTokenRow t now), 202, true,
       "Confirmation email sent. Please check your inbox.",
       some (normalizeEmail email,
         buildConfirmationLink requestOrigin siteBaseUrl (normalizeEmail email) t)⟩ := by
  simp [handleSubscribe, hvalid, hfind, hpending, hstored]

theorem subscribe_pending_reuses_token_witness :
    isValidEmail "user@example.com" = true ∧
    handleSubscribe [⟨"user@example.com", "t0", none, false, some "stored-token", some "t0"⟩]
        "t1" "fresh-uuid" "https://landing.example" none (some "user@example.com") =
      ⟨updateSub [⟨"user@example.com", "t0", none, false, some "stored-token", some "t0"⟩]
         (normalizeEmail "user@example.com") (refreshTokenRow "stored-token" "t1"),
       202, true, "Confirmation email sent. Please check your inbox.",
       some (normalizeEmail "user@example.com",
         buildConfirmationLink "https://landing.example" none
           (normalizeEmail "user@example.com") "stored-token")⟩ :=
  ⟨by decide,
   subscribe_pending_reuses_token
     [⟨"user@example.com", "t0", none, false, some "stored-token", some "t0"⟩]
     "t1" "fresh-uuid" "https://landing.example" none "user@example.com" "stored-token"
     ⟨"user@example.com", "t0", none, false, some "stored-token", some "t0"⟩
     (by decide) (by decide) (by decide) (by decide)⟩

/-- C4: confirming an existing unconfirmed record with a supplied
(non-empty) token different from the stored one renders the error page
with HTTP status 400 and performs no write: the table — hence the
record's confirmed flag, token, and timestamps — is returned
unchanged. -/
theorem confirm_wrong_token (db : Db) (now e token s : String) (r : SubRow)
    (hne : normalizeEmail e ≠ "")
    (htok : token ≠ "")
    (hfind : findSub db (normalizeEmail e) = some r)
    (hpending : r.confirmed = false)
    (hstored : r.confirmation_token = some s)
    (hdiff : s ≠ token) :
    handleConfirmation db now (some token) (some e) = (db, ConfPage.invalidToken)
    ∧ ConfPage.invalidToken.httpStatus = 400 := by
  have he : e ≠ "" := by
    intro h0
    exact hne (by rw [h0]; rfl)
  refine ⟨?_, rfl⟩
  simp [handleConfirmation, he, hne, htok, hfind, hpending, hstored, hdiff]

theorem confirm_wrong_token_witness :
    normalizeEmail "user@example.com" ≠ "" ∧
    handleConfirmation [⟨"user@example.com", "t0", none, false, some "valid-token", some "t0"⟩]
        "t1" (some "other-token") (some "user@example.com") =
      ([⟨"user@example.com", "t0", none, false, some "valid-token", some "t0"⟩],
       ConfPage.invalidToken) :=
  ⟨by decide,
   (confirm_wrong_token
      [⟨"user@example.com", "t0", none, false, some "valid-token", some "t0"⟩]
      "t1" "user@example.com" "other-token" "valid-token"
      ⟨"user@example.com", "t0", none, false, some "valid-token", some "t0"⟩
      (by decide) (by decide) (by decide) (by decide) (by decide) (by decide)).1⟩

/-- C10: when the stored record is unconfirmed and its stored
confirmation token is NULL or empty, every Confirm request — whatever
token value is supplied, including a missing or empty parameter —
renders an error page and leaves the table unchanged: such a record can
never be moved to confirmed by the Confirm operation alone. -/
theorem confirm_tokenless_record_never_confirms (db : Db) (now e : String)
    (tokenParam : Option String) (r : SubRow)
    (hfind : findSub db (normalizeEmail e) = some r)
    (hpending : r.confirmed = false)
    (hstored : r.confirmation_token = none ∨ r.confirmation_token = some "") :
    (handleConfirmation db now tokenParam (some e)).1 = db
    ∧ (handleConfirmation db now tokenParam (some e)).2.isError = true := by
  simp only [handleConfirmation, Option.getD_some]
  split
  · exact ⟨rfl, rfl⟩
  · split
    · exact ⟨rfl, rfl⟩
    · rcases hstored with hs | hs <;>
        simp [hfind, hpending, hs, ConfPage.isError]

theorem confirm_tokenless_record_never_confirms_witness :
    findSub [⟨"user@example.com", "t0", none, false, none, none⟩]
        (normalizeEmail "user@example.com") =
      some ⟨"user@example.com", "t0", none, false, none, none⟩ ∧
    (handleConfirmation [⟨"user@example.com", "t0", none, false, none, none⟩]
        "t1" (some "any-token") (some "user@example.com")).1 =
      [⟨"user@example.com", "t0", none, false, none, none⟩] ∧
    (handleConfirmation [⟨"user@example.com", "t0", none, false, none, none⟩]
        "t1" (some "any-token") (some "user@example.com")).2.isError = true :=
  ⟨by decide,
   (confirm_tokenless_record_never_confirms
      [⟨"user@example.com", "t0", none, false, none, none⟩]
      "t1" "user@example.com" (some "any-token")
      ⟨"user@example.com", "t0", none, false, none, none⟩
      (by decide) (by decide) (Or.inl (by decide))).1,
   (confirm_tokenless_record_never_confirms
      [⟨"user@example.com", "t0", none, false, none, none⟩]
      "t1" "user@example.com" (some "any-token")
      ⟨"user@example.com", "t0", none, false, none, none⟩
      (by decide) (by decide) (Or.inl (by decide))).2⟩

/-- C8: subscribing an email with no existing record inserts a row
keyed by the trimmed, lowercased email with `confirmed = 0`, the fresh
random token, and `token_created_at = created_at = now`, and dispatches
a confirmation email whose link carries the token and the form-encoded
normalized email; an email failing the syntactic check is rejected with
a validation error and no write. -/
theorem subscribe_new_email (db : Db) (now freshToken requestOrigin : String)
    (siteBaseUrl : Option String) (email : String)
    (hvalid : isValidEmail email = true)
    (habsent : findSub db (normalizeEmail email) = none) :
    handleSubscribe db now freshToken requestOrigin siteBaseUrl (some email) =
      ⟨db ++ [newSubRow (normalizeEmail email) now freshToken], 202, true,
       "Confirmation email sent. Please check your inbox.",
       some (normalizeEmail email,
         buildConfirmationLink requestOrigin siteBaseUrl (normalizeEmail email) freshToken)⟩
    ∧ (∀ bad : String, isValidEmail bad = false →
        handleSubscribe db now freshToken requestOrigin siteBaseUrl (some bad) =
          ⟨db, 400, false, "A valid email address is required.", none⟩) := by
  constructor
  · simp [handleSubscribe, hvalid, habsent]
  · intro bad hbad
    simp [handleSubscribe, hbad]

theorem subscribe_new_email_witness :
    isValidEmail "A@B.com" = true ∧
    findSub [] (normalizeEmail "A@B.com") = none ∧
    handleSubscribe [] "2024-01-01T00:00:00.000Z" "3f2c9c1e-uuid"
        "https://landing.example" (some "https://solarroots.example.com")
        (some "A@B.com") =
      ⟨[⟨"a@b.com", "2024-01-01T00:00:00.000Z", none, false, some "3f2c9c1e-uuid",
         some "2024-01-01T00:00:00.000Z"⟩],
       202, true, "Confirmation email sent. Please check your inbox.",
       some ("a@b.com",
         "https://solarroots.example.com/confirm?token=3f2c9c1e-uuid&email=a%40b.com")⟩ :=
  ⟨by decide, by decide,
   (subscribe_new_email [] "2024-01-01T00:00:00.000Z" "3f2c9c1e-uuid"
      "https://landing.example" (some "https://solarroots.example.com") "A@B.com"
      (by decide) (by decide)).1⟩

/-- C9: every Subscribe request that reaches the email-dispatch step
(valid email, record absent or pending) answers 202 with
`success: true`, and the response is the same for every outcome of the
detached send; a failing send is only logged by the detached task's
catch handler. -/
theorem subscribe_response_independent_of_send (db : Db)
    (now freshToken requestOrigin : String) (siteBaseUrl : Option String)
    (email : String)
    (hvalid : isValidEmail email = true)
    (hready : findSub db (normalizeEmail email) = none ∨
      ∃ r, findSub db (normalizeEmail email) = some r ∧ r.confirmed = false) :
    ∀ o1 o2 : SendOutcome,
      (subscribeRequest db now freshToken requestOrigin siteBaseUrl (some email) o1).1 =
        (subscribeRequest db now freshToken requestOrigin siteBaseUrl (some email) o2).1
      ∧ (subscribeRequest db now freshToken requestOrigin siteBaseUrl (some email) o1).1.status
          = 202
      ∧ (subscribeRequest db now freshToken requestOrigin siteBaseUrl (some email) o1).1.success
          = true
      ∧ ∀ err, (subscribeRequest db now freshToken requestOrigin siteBaseUrl (some email)
            (SendOutcome.failed err)).2 = ["Failed to send confirmation email: " ++ err] := by
  intro o1 o2
  have hd : ∀ o : SendOutcome,
      (subscribeRequest db now freshToken requestOrigin siteBaseUrl (some email) o).1 =
        handleSubscribe db now freshToken requestOrigin siteBaseUrl (some email) :=
    fun _ => rfl
  have h202 : (handleSubscribe db now freshToken requestOrigin siteBaseUrl
      (some email)).status = 202 ∧
      (handleSubscribe db now freshToken requestOrigin siteBaseUrl
      (some email)).success = true ∧
      (handleSubscribe db now freshToken requestOrigin siteBaseUrl
      (some email)).emailDispatch.isSome = true := by
    rcases hready with habsent | ⟨r, hfind, hpending⟩
    · simp [handleSubscribe, hvalid, habsent]
    · simp [handleSubscribe, hvalid, hfind, hpending]
  refine ⟨by rw [hd o1, hd o2], by rw [hd o1]; exact h202.1, by rw [hd o1]; exact h202.2.1, ?_⟩
  intro err
  have := h202.2.2
  simp only [subscribeRequest]
  rcases hs : (handleSubscribe db now freshToken requestOrigin siteBaseUrl
      (some email)).emailDispatch with h | h
  · rw [hs] at this
    simp at this
  · simp [detachedSendLog]

theorem subscribe_response_independent_of_send_witness :
    isValidEmail "user@example.com" = true ∧
    (subscribeRequest [] "t0" "uuid-1" "https://o.example" none (some "user@example.com")
        SendOutcome.delivered).1 =
      (subscribeRequest [] "t0" "uuid-1" "https://o.example" none (some "user@example.com")
        (SendOutcome.failed "network down")).1 ∧
    (subscribeRequest [] "t0" "uuid-1" "https://o.example" none (some "user@example.com")
        SendOutcome.delivered).1.status = 202 ∧
    (subscribeRequest [] "t0" "uuid-1" "https://o.example" none (some "user@example.com")
        (SendOutcome.failed "network down")).2 =
      ["Failed to send confirmation email: network down"] :=
  ⟨by decide,
   (subscribe_response_independent_of_send [] "t0" "uuid-1" "https://o.example" none
      "user@example.com" (by decide) (Or.inl (by decide))
      SendOutcome.delivered (SendOutcome.failed "network down")).1,
   (subscribe_response_independent_of_send [] "t0" "uuid-1" "https://o.example" none
      "user@example.com" (by decide) (Or.inl (by decide))
      SendOutcome.delivered (SendOutcome.failed "network down")).2.1,
   (subscribe_response_independent_of_send [] "t0" "uuid-1" "https://o.example" none
      "user@example.com" (by decide) (Or.inl (by decide))
      SendOutcome.delivered (SendOutcome.failed "network down")).2.2.2 "network down"⟩

/-- C5 evidence: the schema bootstrapper of `src/index.ts` issues only
the two `CREATE TABLE IF NOT EXISTS` statements. On a legacy database
whose `subscriptions` table exists with only an `email` column, it
leaves every expected column (`created_at`, `updated_at`, `confirmed`,
`confirmation_token`, `token_created_at`) missing — it runs no
`pragma_table_info` probe and no `ALTER TABLE ... ADD COLUMN` — and the
`profiles` table it creates has no password-digest column, although the
repository's tests demand both migrations. It is idempotent. -/
theorem ensureSchema_skips_legacy_migration :
    (ensureSchema ⟨⟨true, ["email"]⟩, ⟨false, []⟩⟩).subscriptions.cols = ["email"]
    ∧ ((ensureSchema ⟨⟨true, ["email"]⟩, ⟨false, []⟩⟩).subscriptions.cols.contains
        "confirmed") = false
    ∧ ((ensureSchema ⟨⟨true, ["email"]⟩, ⟨false, []⟩⟩).profiles.cols.contains
        "password_hash") = false
    ∧ ensureSchema (ensureSchema ⟨⟨true, ["email"]⟩, ⟨false, []⟩⟩) =
        ensureSchema ⟨⟨true, ["email"]⟩, ⟨false, []⟩⟩ := by
  decide

/-- C6 evidence: the profile handler of `src/index.ts` reads only
`email`, `name` and `bio` from the payload. With an existing
subscription row, no existing profile row and no password supplied, it
answers 200 `Profile saved successfully.` and inserts a profile row —
there is no password-digest column and no validation error — although
the repository's tests demand 400 `Password is required to create a
profile.` and no write in this situation. -/
theorem handleProfile_accepts_missing_password :
    handleProfile [⟨"user@example.com", "t0", none, true, none, none⟩] []
        "t1" (some "user@example.com") (some "Solar Fan") (some "Loves sunshine.") =
      ⟨[⟨"user@example.com", "t0", none, true, none, none⟩],
       [⟨"user@example.com", "Solar Fan", "Loves sunshine.", "t1", "t1"⟩],
       200, true, "Profile saved successfully."⟩ := by
  decide

/-- C7: behaviour of the admin login handler (modelled from the spec;
the route is absent from `src/index.ts`). Unconfigured admin access —
no admin email, or neither a plaintext password nor a digest — answers
503 with `success: false`; with a configured email and plaintext
password, a match answers 200 with `success: true` and any mismatch
401 with `success: false`; with a configured email and only a digest,
the submitted password's digest is compared instead. -/
theorem adminLogin_configured_match_behaviour (digest : String → String)
    (env : AdminEnv) (email password : String) :
    ((env.ADMIN_EMAIL = none ∨ (env.ADMIN_PASSWORD = none ∧ env.ADMIN_PASSWORD_HASH = none)) →
      handleAdminLogin digest env email password =
        (503, false, "Admin access is not configured."))
    ∧ (∀ ae ap, env.ADMIN_EMAIL = some ae → env.ADMIN_PASSWORD = some ap →
        (email = ae ∧ password = ap →
          handleAdminLogin digest env email password =
            (200, true, "Admin login successful."))
        ∧ (¬(email = ae ∧ password = ap) →
          handleAdminLogin digest env email password =
            (401, false, "Incorrect admin credentials.")))
    ∧ (∀ ae hs, env.ADMIN_EMAIL = some ae → env.ADMIN_PASSWORD = none →
        env.ADMIN_PASSWORD_HASH = some hs →
        (email = ae ∧ digest password = hs →
          handleAdminLogin digest env email password =
            (200, true, "Admin login successful."))
        ∧ (¬(email = ae ∧ digest password = hs) →
          handleAdminLogin digest env email password =
            (401, false, "Incorrect admin credentials."))) := by
  refine ⟨?_, ?_, ?_⟩
  · rintro (hae | ⟨hap, hah⟩)
    · simp [handleAdminLogin, hae]
    · cases hae : env.ADMIN_EMAIL with
      | none => simp [handleAdminLogin, hae]
      | some ae => simp [handleAdminLogin, hae, hap, hah]
  · intro ae ap hae hap
    constructor
    · rintro ⟨he, hp⟩
      simp [handleAdminLogin, hae, hap, he, hp]
    · intro hmis
      simp [handleAdminLogin, hae, hap, hmis]
  · intro ae hs hae hap hah
    constructor
    · rintro ⟨he, hp⟩
      simp [handleAdminLogin, hae, hap, hah, he, hp]
    · intro hmis
      simp [handleAdminLogin, hae, hap, hah, hmis]

theorem adminLogin_configured_match_behaviour_witness :
    handleAdminLogin (fun s => s ++ "#digest")
        ⟨none, none, none⟩ "admin@example.com" "secret" =
      (503, false, "Admin access is not configured.") ∧
    handleAdminLogin (fun s => s ++ "#digest")
        ⟨some "admin@example.com", some "secret", none⟩ "admin@example.com" "secret" =
      (200, true, "Admin login successful.") ∧
    handleAdminLogin (fun s => s ++ "#digest")
        ⟨some "admin@example.com", some "secret", none⟩ "admin@example.com" "wrong" =
      (401, false, "Incorrect admin credentials.") ∧
    handleAdminLogin (fun s => s ++ "#digest")
        ⟨some "admin@example.com", none, some "hashed-secret#digest"⟩
        "admin@example.com" "hashed-secret" =
      (200, true, "Admin login successful.") :=
  ⟨(adminLogin_configured_match_behaviour (fun s => s ++ "#digest")
      ⟨none, none, none⟩ "admin@example.com" "secret").1 (Or.inl rfl),
   ((adminLogin_configured_match_behaviour (fun s => s ++ "#digest")
      ⟨some "admin@example.com", some "secret", none⟩ "admin@example.com" "secret").2.1
      "admin@example.com" "secret" rfl rfl).1 ⟨rfl, rfl⟩,
   ((adminLogin_configured_match_behaviour (fun s => s ++ "#digest")
      ⟨some "admin@example.com", some "secret", none⟩ "admin@example.com" "wrong").2.1
      "admin@example.com" "secret" rfl rfl).2 (by decide),
   ((adminLogin_configured_match_behaviour (fun s => s ++ "#digest")
      ⟨some "admin@example.com", none, some "hashed-secret#digest"⟩
      "admin@example.com" "hashed-secret").2.2
      "admin@example.com" "hashed-secret#digest" rfl rfl rfl).1 ⟨rfl, by decide⟩⟩

end SolarRoots

